import Mathlib

/-!
Shallow embedding of the skynet semantic logger (semantic_logger.go): the
severity-level model, the log-record type, record construction and
enrichment, exception rendering, the fan-out dispatcher, and the stack
introspection helpers, together with theorems settling the specification
claims about them.

Ambient process state (argument vector, pid, clock, hostname lookup) is
passed explicitly through an Env value; the runtime call stack is passed
explicitly as a list of frames, following the spec design note on
injecting these as configuration. Side effects are made explicit:
dispatcher operations return the trace of sink calls they perform, the
fatal path returns the trace plus the payload it panics with, and
setKnownFields returns the enriched record plus the diagnostic lines it
writes to the operational log.
-/

/-- Go: type LogLevel int. Levels are ints for the sake of a well-defined
ordering; custom levels are any other int value. -/
abbrev LogLevel := Int

def TRACE : LogLevel := 0

def DEBUG : LogLevel := 1

def INFO : LogLevel := 2

def WARN : LogLevel := 3

def ERROR : LogLevel := 4

def FATAL : LogLevel := 5

/-- Go: var LogLevels, the list of the six valid standard levels. -/
def LogLevels : List LogLevel := [TRACE, DEBUG, INFO, WARN, ERROR, FATAL]

/-- Go: func (level LogLevel) LessSevereThan(level2 LogLevel) bool
returns int(level) < int(level2). -/
def LogLevel.LessSevereThan (level level2 : LogLevel) : Bool :=
  decide (level < level2)

/-- Go: func (level LogLevel) String() string. The switch maps the six
standard levels to their names; every other value falls to CUSTOM. -/
def LogLevel.String (level : LogLevel) : String :=
  if level = TRACE then "TRACE"
  else if level = DEBUG then "DEBUG"
  else if level = INFO then "INFO"
  else if level = WARN then "WARN"
  else if level = ERROR then "ERROR"
  else if level = FATAL then "FATAL"
  else "CUSTOM"

/-- One stack frame as reported by runtime.Caller: file, line, and the
fully qualified function name (the data genStacktrace and getCallerName
read from it). -/
structure Frame where
  file : String
  line : Nat
  name : String

/-- Go: runtime.Caller(skip). The ambient call stack is passed explicitly
as a list whose index 0 is the frame of the function doing the lookup;
the lookup reports ok=false (here: none) when skip walks past the end. -/
def runtimeCaller (stack : List Frame) (skip : Nat) : Option Frame :=
  stack.get? skip

/-- Go: func getCallerName(skip int) string, which returns
runtime.FuncForPC(pc).Name(); on a failed lookup the nil *Func receiver
makes Name() return the empty string. -/
def getCallerName (stack : List Frame) (skip : Nat) : String :=
  match runtimeCaller stack skip with
  | some f => f.name
  | none => ""

/-- Go: the LogPayload struct. time.Time and time.Duration are modelled
as integer counts of nanoseconds. Defaults are the Go zero values. -/
structure LogPayload where
  Level : LogLevel := 0
  Message : String := ""
  Action : String := ""
  Application : String := ""
  PID : Int := 0
  Time : Int := 0
  HostName : String := ""
  Tags : List String := []
  Name : String := ""
  UUID : String := ""
  Table : String := ""
  Backtrace : List String := []
  Duration : Int := 0
  ThreadName : String := ""

/-- A value passed to fmt.Sprintf: the string and int cases suffice for
the formatting behaviour the claims exercise. -/
inductive GoValue where
  | str (s : String)
  | int (n : Int)

/-- The Go type name of a value, as fmt prints it inside error markers. -/
def goTypeName : GoValue → String
  | GoValue.str _ => "string"
  | GoValue.int _ => "int"

/-- The default rendering of a value, as fmt prints it for the v verb and
inside error markers. -/
def goRender : GoValue → String
  | GoValue.str s => s
  | GoValue.int n => toString n

/-- One verb applied to one argument, following fmt: s on a string and d
on an int render the value; any mismatched or unknown verb renders the
marker made of a percent sign, a bang, the verb, and type=value in
parentheses, instead of failing. -/
def formatVerb (verb : Char) (v : GoValue) : String :=
  match verb, v with
  | 'v', GoValue.str s => s
  | 'v', GoValue.int n => toString n
  | 's', GoValue.str s => s
  | 'd', GoValue.int n => toString n
  | _, _ => "%!" ++ String.singleton verb ++ "(" ++ goTypeName v ++ "=" ++ goRender v ++ ")"

/-- The suffix fmt appends when arguments remain after the format string
is exhausted: the EXTRA marker listing type=value for each leftover. -/
def extraSuffix (args : List GoValue) : String :=
  match args with
  | [] => ""
  | _ => "%!(EXTRA " ++ String.intercalate ", "
      (args.map (fun v => goTypeName v ++ "=" ++ goRender v)) ++ ")"

/-- Models fmt.Sprintf as a total function over the format characters:
literal characters are copied, a doubled percent emits one percent, a
verb consumes the next argument (MISSING marker when none is left), a
trailing percent emits the NOVERB marker, and leftover arguments emit
the EXTRA marker. fmt never panics; every malformed case degrades to a
marker in the output. -/
def sprintfLoop : List Char → List GoValue → String
  | [], args => extraSuffix args
  | ['%'], args => "%!(NOVERB)" ++ extraSuffix args
  | '%' :: '%' :: rest, args => "%" ++ sprintfLoop rest args
  | '%' :: c :: rest, [] => "%!" ++ String.singleton c ++ "(MISSING)" ++ sprintfLoop rest []
  | '%' :: c :: rest, a :: args => formatVerb c a ++ sprintfLoop rest args
  | c :: rest, args => String.singleton c ++ sprintfLoop rest args

/-- Go: fmt.Sprintf(formatStr, vars...). -/
def Sprintf (formatStr : String) (vars : List GoValue) : String :=
  sprintfLoop formatStr.toList vars

/-- Go: func (payload *LogPayload) Exception() string, which formats
"%s -- %s: %s\n%s" with the message, the literal panic, the message
again, and the backtrace joined by newlines. -/
def LogPayload.Exception (payload : LogPayload) : String :=
  Sprintf "%s -- %s: %s\n%s"
    [GoValue.str payload.Message, GoValue.str "panic",
     GoValue.str payload.Message,
     GoValue.str (String.intercalate "\n" payload.Backtrace)]

/-- The ambient process state read by setKnownFields: os.Args[0],
os.Getpid(), time.Now(), and the result of os.Hostname() (which returns
the empty string alongside the error on failure). -/
structure Env where
  args0 : String
  pid : Int
  now : Int
  hostname : Except String String

/-- Go: func (payload *LogPayload) setKnownFields(). Returns the updated
payload together with the lines written to the operational log (one line
when hostname resolution fails); it never returns an error. -/
def LogPayload.setKnownFields (payload : LogPayload) (env : Env) :
    LogPayload × List String :=
  let p1 := if payload.Application = "" then { payload with Application := env.args0 }
            else payload
  let p2 := { p1 with PID := env.pid, Time := env.now }
  match env.hostname with
  | Except.ok h => ({ p2 with HostName := h }, [])
  | Except.error e => ({ p2 with HostName := "" }, ["Error getting hostname: " ++ e ++ "\n"])

/-- Go: func (payload *LogPayload) SetTags(tags ...string). -/
def LogPayload.SetTags (payload : LogPayload) (tags : List String) : LogPayload :=
  { payload with Tags := tags }

/-- Go: func NewLogPayload(level LogLevel, formatStr string,
vars ...interface) *LogPayload. Sets Level, the Sprintf-rendered Message,
and Action from the caller two frames up; all other fields stay at their
zero values (setKnownFields is deliberately not called here). -/
def NewLogPayload (stack : List Frame) (level : LogLevel) (formatStr : String)
    (vars : List GoValue) : LogPayload :=
  { Level := level
    Message := Sprintf formatStr vars
    Action := getCallerName stack 2 }

/-- Go: type MultiSemanticLogger, a slice of SemanticLogger sinks,
represented by the list of sink identifiers in dispatch order. -/
abbrev MultiSemanticLogger (σ : Type) := List σ

/-- True exactly on the six standard levels listed by the switch cases in
the Log and Fatal methods. -/
def isStandardLevel (level : LogLevel) : Bool :=
  level == TRACE || level == DEBUG || level == INFO ||
  level == WARN || level == ERROR || level == FATAL

/-- Go: func (ml MultiSemanticLogger) Log(level, msg, payload). Returns
the trace of sink Log calls, each pair being the sink and the payload it
receives. The switch has a default case that falls through to the
standard-level case, so the forwarding loop runs for every level. -/
def MultiSemanticLogger.Log (ml : MultiSemanticLogger σ) (level : LogLevel)
    (msg : String) (payload : LogPayload) : List (σ × LogPayload) :=
  if isStandardLevel level then ml.map (fun lgr => (lgr, payload))
  else ml.map (fun lgr => (lgr, payload))

/-- The observable outcome of the fatal path: the trace of sink Log calls
made before the panic, and the payload carried by the panic. -/
structure FatalResult (σ : Type) where
  calls : List (σ × LogPayload)
  panicPayload : LogPayload

/-- Go: func (ml MultiSemanticLogger) Fatal(level, msg, payload). The
switch lists only the six standard levels and has no default case, so
the forwarding loop is skipped for any other level; the panic carrying
the payload happens after the switch in every case. -/
def MultiSemanticLogger.Fatal (ml : MultiSemanticLogger σ) (level : LogLevel)
    (msg : String) (payload : LogPayload) : FatalResult σ :=
  { calls := if isStandardLevel level then ml.map (fun lgr => (lgr, payload)) else []
    panicPayload := payload }

/-- Go: the fmt.Sprintf line inside genStacktrace, rendering one frame as
file, colon, line, space, name, parentheses, and a newline. -/
def traceLine (f : Frame) : String :=
  f.file ++ ":" ++ toString f.line ++ " " ++ f.name ++ "()\n"

/-- Go: the loop body of genStacktrace, calling runtime.Caller with an
increasing skip until it reports no more frames. -/
def genStacktraceLoop (stack : List Frame) (skip : Nat) : List String :=
  match h : runtimeCaller stack skip with
  | none => []
  | some f => traceLine f :: genStacktraceLoop stack (skip + 1)
termination_by stack.length - skip
decreasing_by
  have hlt : skip < stack.length := by
    unfold runtimeCaller at h
    exact List.get?_eq_some.mp h |>.1
  omega

/-- Go: func genStacktrace() (stacktrace []string), starting the walk at
skip 1, one frame above genStacktrace itself. -/
def genStacktrace (stack : List Frame) : List String :=
  genStacktraceLoop stack 1

/-- Concrete payloads and environment used by the closed theorems. -/
def examplePayload : LogPayload :=
  { Level := ERROR, Message := "boom" }

def payloadP0 : LogPayload := {}

def envEx : Env :=
  { args0 := "prog", pid := 42, now := 1000, hostname := Except.ok "host" }

/-- The stack used by the stack-trace counterexample: the walker frame
itself followed by one caller frame. -/
def stackEx : List Frame :=
  [{ file := "st.go", line := 1, name := "genStacktrace" },
   { file := "f.go", line := 10, name := "g" }]

/-- The loop of genStacktrace formats exactly the frames from the given
skip onward, in order. -/
theorem genStacktraceLoop_eq (stack : List Frame) (skip : Nat) :
    genStacktraceLoop stack skip = (stack.drop skip).map traceLine := by
  refine genStacktraceLoop.induct stack
    (fun s => genStacktraceLoop stack s = (stack.drop s).map traceLine) ?_ ?_ skip
  · intro x h
    rw [genStacktraceLoop, h]
    unfold runtimeCaller at h
    rw [List.drop_eq_nil_of_le (List.get?_eq_none.mp h)]
    rfl
  · intro x f h ih
    rw [genStacktraceLoop, h, ih]
    unfold runtimeCaller at h
    obtain ⟨hlt, hget⟩ := List.get?_eq_some.mp h
    have hx : stack[x] = f := by
      simpa [List.get_eq_getElem] using hget
    rw [List.drop_eq_getElem_cons hlt, List.map_cons, hx]

/-- C3: for every dispatcher, every level (standard or custom), and every
message, Log delivers the identical record to each sink exactly once, in
sink-sequence order. -/
theorem log_delivers_to_each_sink_in_order :
    ∀ (σ : Type) (ml : MultiSemanticLogger σ) (level : LogLevel)
      (msg : String) (payload : LogPayload),
      MultiSemanticLogger.Log ml level msg payload
        = ml.map (fun lgr => (lgr, payload)) := by
  intro σ ml level msg payload
  unfold MultiSemanticLogger.Log
  exact ite_self _

/-- C1: exhibit of the divergence. At the custom level 6, Fatal notifies
no sink before panicking with the payload, while Log at the same custom
level does forward to every sink; the claim and the doc comment on Fatal
say every sink receives the record via Log before the panic. -/
theorem fatal_custom_level_skips_sinks :
    (MultiSemanticLogger.Fatal ([0] : MultiSemanticLogger Nat) (6 : LogLevel)
        "m" examplePayload).calls = []
    ∧ (MultiSemanticLogger.Fatal ([0] : MultiSemanticLogger Nat) (6 : LogLevel)
        "m" examplePayload).panicPayload = examplePayload
    ∧ MultiSemanticLogger.Log ([0] : MultiSemanticLogger Nat) (6 : LogLevel)
        "m" examplePayload = [(0, examplePayload)] :=
  ⟨rfl, rfl, rfl⟩

/-- C2: counterexample to the claim as stated. Dispatching through the
fan-out Log delivers the record unchanged: the PID field stays 0 even
though the ambient process id of the example environment is 42, so the
dispatcher did not invoke the finalize step. -/
theorem dispatch_does_not_finalize :
    MultiSemanticLogger.Log ([0] : MultiSemanticLogger Nat) INFO "m" payloadP0
        = [(0, payloadP0)]
    ∧ payloadP0.PID = 0
    ∧ (payloadP0.setKnownFields envEx).1.PID = 42
    ∧ (0 : Int) ≠ (42 : Int) :=
  ⟨rfl, rfl, rfl, by decide⟩

/-- C2 (amended): the fan-out dispatcher forwards the record to the sinks
unchanged and does not itself invoke the finalize step; setKnownFields,
when invoked, sets application to the invocation name iff it was empty,
pid to the current process id, time to the current time, and host_name
to the resolved host name or empty on failure, emitting one diagnostic
line in that case and never raising. -/
theorem setKnownFields_spec :
    ∀ (payload : LogPayload) (env : Env),
      (∀ (ml : MultiSemanticLogger Nat) (level : LogLevel) (msg : String),
        MultiSemanticLogger.Log ml level msg payload
          = ml.map (fun lgr => (lgr, payload)))
      ∧ (payload.setKnownFields env).1.Application
          = (if payload.Application = "" then env.args0 else payload.Application)
      ∧ (payload.setKnownFields env).1.PID = env.pid
      ∧ (payload.setKnownFields env).1.Time = env.now
      ∧ (payload.setKnownFields env).1.HostName
          = (match env.hostname with | Except.ok h => h | Except.error _ => "")
      ∧ (payload.setKnownFields env).2
          = (match env.hostname with
             | Except.ok _ => []
             | Except.error e => ["Error getting hostname: " ++ e ++ "\n"]) := by
  intro payload env
  obtain ⟨a, p, n, hn⟩ := env
  refine ⟨fun ml level msg => ?_, ?_⟩
  · unfold MultiSemanticLogger.Log
    exact ite_self _
  · cases hn <;> by_cases h : payload.Application = "" <;>
      simp [LogPayload.setKnownFields, h]

/-- C4: counterexample to the claimed descriptor format. On a stack whose
frame above the walker is file f.go, line 10, function g, the produced
descriptor ends with a newline, so it is not of the form file, colon,
line, space, name, parentheses with nothing after. -/
theorem stacktrace_descriptor_has_trailing_newline :
    genStacktrace stackEx = ["f.go:10 g()\n"]
    ∧ ("f.go:10 g()\n" : String) ≠ "f.go:10 g()" := by
  constructor
  · rw [genStacktrace, genStacktraceLoop_eq]
    rfl
  · decide

/-- C4 (amended): the stack-trace helper produces exactly one descriptor
per frame above its own, in stack order with the oldest caller last,
each of the form file, colon, line, space, name, parentheses, and a
trailing newline; the walk ends exactly when the stack is exhausted, so
the count equals the stack depth minus the helper frame. -/
theorem genStacktrace_frames :
    ∀ (stack : List Frame),
      genStacktrace stack
          = (stack.drop 1).map
              (fun f => f.file ++ ":" ++ toString f.line ++ " " ++ f.name ++ "()\n")
        ∧ (genStacktrace stack).length = stack.length - 1 := by
  intro stack
  have h : genStacktrace stack = (stack.drop 1).map traceLine := by
    rw [genStacktrace, genStacktraceLoop_eq]
  refine ⟨h, ?_⟩
  rw [h]
  simp

/-- C5: LessSevereThan is exactly strict order on ordinals, for standard
and custom levels alike, and the six standard ordinals are ordered
TRACE, DEBUG, INFO, WARN, ERROR, FATAL. -/
theorem lessSevereThan_iff_ordinal_lt :
    (∀ (a b : LogLevel), LogLevel.LessSevereThan a b = true ↔ a < b)
    ∧ (TRACE < DEBUG ∧ DEBUG < INFO ∧ INFO < WARN ∧ WARN < ERROR ∧ ERROR < FATAL) := by
  constructor
  · intro a b
    simp [LogLevel.LessSevereThan]
  · decide

/-- C7: the display name is total: the six standard ordinals map to their
literal names and every other ordinal maps to CUSTOM. -/
theorem logLevel_display_name_total :
    (LogLevel.String TRACE = "TRACE" ∧ LogLevel.String DEBUG = "DEBUG"
      ∧ LogLevel.String INFO = "INFO" ∧ LogLevel.String WARN = "WARN"
      ∧ LogLevel.String ERROR = "ERROR" ∧ LogLevel.String FATAL = "FATAL")
    ∧ ∀ (level : LogLevel), level ∉ LogLevels → LogLevel.String level = "CUSTOM" := by
  constructor
  · exact ⟨rfl, rfl, rfl, rfl, rfl, rfl⟩
  · intro level h
    simp [LogLevels, TRACE, DEBUG, INFO, WARN, ERROR, FATAL] at h
    obtain ⟨h0, h1, h2, h3, h4, h5⟩ := h
    simp [LogLevel.String, TRACE, DEBUG, INFO, WARN, ERROR, FATAL, h0, h1, h2, h3, h4, h5]

/-- C7 witness: the custom ordinal 42 renders as CUSTOM. -/
theorem logLevel_display_name_total_witness : LogLevel.String 42 = "CUSTOM" :=
  logLevel_display_name_total.2 42 (by decide)

/-- C8: SetTags replaces the tag sequence wholesale; in particular tags a
and b followed by tag c leaves exactly c. -/
theorem setTags_replaces_wholesale :
    (∀ (payload : LogPayload) (tags : List String),
      (payload.SetTags tags).Tags = tags)
    ∧ ∀ (payload : LogPayload),
        ((payload.SetTags ["a", "b"]).SetTags ["c"]).Tags = ["c"] :=
  ⟨fun _ _ => rfl, fun _ => rfl⟩

/-- C9: record construction is total for every level, format string, and
argument list, and the message is the safe fmt rendering; malformed
formats degrade to marker strings instead of failing, as the concrete
cases of a mismatched verb, a missing argument, an extra argument, and a
trailing percent show. -/
theorem newLogPayload_total_best_effort :
    (∀ (stack : List Frame) (level : LogLevel) (formatStr : String)
      (vars : List GoValue),
      NewLogPayload stack level formatStr vars
        = { Level := level, Message := Sprintf formatStr vars,
            Action := getCallerName stack 2 })
    ∧ Sprintf "%d" [GoValue.str "x"] = "%!d(string=x)"
    ∧ Sprintf "%s %s" [GoValue.str "a"] = "a %!s(MISSING)"
    ∧ Sprintf "hi" [GoValue.int 5] = "hi%!(EXTRA int=5)"
    ∧ Sprintf "100%" [] = "100%!(NOVERB)" :=
  ⟨fun _ _ _ _ => rfl, rfl, rfl, rfl, rfl⟩

/-- C10: the msg parameter influences nothing observable: Log and Fatal
produce identical sink-call traces and identical panic payloads for any
two messages. -/
theorem dispatch_ignores_msg :
    ∀ (σ : Type) (ml : MultiSemanticLogger σ) (level : LogLevel)
      (msg msg2 : String) (payload : LogPayload),
      MultiSemanticLogger.Log ml level msg payload
          = MultiSemanticLogger.Log ml level msg2 payload
        ∧ MultiSemanticLogger.Fatal ml level msg payload
          = MultiSemanticLogger.Fatal ml level msg2 payload :=
  fun _ _ _ _ _ _ => ⟨rfl, rfl⟩

/-- The exception format string applied to a message and a joined
backtrace renders as the message, the panic marker with the message
again, a newline, and the backtrace text. -/
theorem sprintf_exception_eq (m bt : String) :
    Sprintf "%s -- %s: %s\n%s"
        [GoValue.str m, GoValue.str "panic", GoValue.str m, GoValue.str bt]
      = m ++ " -- panic: " ++ m ++ "\n" ++ bt := by
  apply String.ext
  have hfmt : "%s -- %s: %s\n%s".toList
      = ['%','s',' ','-','-',' ','%','s',':',' ','%','s','\n','%','s'] := rfl
  unfold Sprintf
  rw [hfmt]
  have hsing : ∀ c : Char, (String.singleton c).data = [c] := fun _ => rfl
  have h1 : (" -- panic: " : String).data
      = [' ', '-', '-', ' ', 'p', 'a', 'n', 'i', 'c', ':', ' '] := rfl
  have h2 : ("\n" : String).data = ['\n'] := rfl
  have h3 : ("panic" : String).data = ['p', 'a', 'n', 'i', 'c'] := rfl
  have h4 : ("" : String).data = [] := rfl
  simp [sprintfLoop, formatVerb, extraSuffix, hsing, h1, h2, h3, h4,
    String.data_append, List.append_assoc]

/-- C6: for every record the exception rendering is the message, the
panic marker repeating the message, a newline, and the backtrace joined
one frame per line; in particular the boom record renders exactly as
claimed. -/
theorem exception_rendering :
    (∀ (payload : LogPayload),
      payload.Exception
        = payload.Message ++ " -- panic: " ++ payload.Message ++ "\n"
          ++ String.intercalate "\n" payload.Backtrace)
    ∧ ({ Message := "boom", Backtrace := ["f.go:10 g()", "f.go:20 h()"] } : LogPayload).Exception
        = "boom -- panic: boom\nf.go:10 g()\nf.go:20 h()" := by
  constructor
  · intro payload
    exact sprintf_exception_eq payload.Message (String.intercalate "\n" payload.Backtrace)
  · rfl
